import Mathlib

/-!
# Knowledge Forge — phase-graph execution engine, verified model

A shallow embedding of the phase-graph engine of `server/agents/base.py`
(`BaseForgeAgent`, `BasePhaseContext`, `PhaseTransition`, `TransitionRecord`),
the research agent's phase graph and context serialization
(`server/agents/research/phases.py`), the restore path of
`BaseForgeAgent.restore_state`, and the checkpoint gates of the understand and
build agents (`UnderstandAgent._handle_phase_checkpoint`,
`BuildAgent._handle_phase_checkpoint`).

Modelling conventions:
* Python `dict[str, V]` is an insertion-ordered association list with unique
  keys; `d.get(k, default)` and `d[k] = v` are `dictGet` / `dictSet`.
* Python `set[str]` is kept as a `List String` in iteration order, so
  `list(s)` and `set(l)` are identities of the model.
* `datetime` timestamps are opaque `Nat` values; `isoformat`/`fromisoformat`
  round-trip exactly, so serialization of a timestamp is the identity.
  `datetime.now()` is modelled by a `clock` counter threaded through the loop.
* Python's stable `sorted(key=...)` is modelled by a stable insertion sort
  (`stableSort`) over the boolean comparison of the key tuples.
* The abstract methods supplied by agent subclasses (`_execute_phase`,
  `_evaluate_transition_condition`, `_get_awaiting_input_prompt`,
  `_generate_completion_summary`, `_create_phase_context`) are parameters of
  the engine functions, exactly as they are dynamically dispatched in Python.
* Exceptions are modelled with `Except` / an `Option String` error slot; an
  executor that raises returns the events already yielded and the (partially)
  mutated context it leaves behind.
-/

namespace KnowledgeForge

/-! ## Python dict model -/

/-- `d.get(k, default)` for an insertion-ordered string-keyed dict. -/
def dictGet {β : Type} (d : List (String × β)) (k : String) (default : β) : β :=
  match d with
  | [] => default
  | kv :: rest => if kv.1 == k then kv.2 else dictGet rest k default

/-- `d[k] = v` for an insertion-ordered string-keyed dict: replaces the
binding in place, or appends a new binding at the end. -/
def dictSet {β : Type} (d : List (String × β)) (k : String) (v : β) :
    List (String × β) :=
  match d with
  | [] => [(k, v)]
  | kv :: rest => if kv.1 == k then (k, v) :: rest else kv :: dictSet rest k v

/-! ## Phase graph data model (`server/agents/base.py`) -/

/-- `PhaseTransition`: a valid transition between phases. -/
structure PhaseTransition (Phase : Type) where
  from_phase : Phase
  to_phase : Phase
  condition : String
  is_backward : Bool := false
  priority : Int := 0
deriving DecidableEq, Repr

/-- `TransitionRecord`: record of a phase transition for history tracking.
The phases are stored as their `.value` strings, as in the source. -/
structure TransitionRecord where
  from_phase : String
  to_phase : String
  reason : String
  is_backward : Bool
  timestamp : Nat
deriving DecidableEq, Repr

/-- `BasePhaseContext` with the subclass extension fields abstracted into
`ext` (each agent extends the dataclass with domain fields). -/
structure PhaseContext (E : Type) where
  phase_visits : List (String × Nat) := []
  transition_history : List TransitionRecord := []
  backward_trigger : Option String := none
  backward_trigger_detail : Option String := none
  awaiting_user_input : Bool := false
  ext : E
deriving DecidableEq, Repr

/-- `BasePhaseContext.increment_visit`; `value` is the `.value` projection of
the phase enum. -/
def PhaseContext.increment_visit {E Phase : Type} (value : Phase → String)
    (ctx : PhaseContext E) (phase : Phase) : PhaseContext E :=
  let n := dictGet ctx.phase_visits (value phase) 0 + 1
  { ctx with phase_visits := dictSet ctx.phase_visits (value phase) n }

/-- `BasePhaseContext.get_visit_count`. -/
def PhaseContext.get_visit_count {E Phase : Type} (value : Phase → String)
    (ctx : PhaseContext E) (phase : Phase) : Nat :=
  dictGet ctx.phase_visits (value phase) 0

/-- `BasePhaseContext.record_transition`.  Appends a `TransitionRecord`; a
backward transition stores its reason in `backward_trigger`, a forward one
clears both trigger fields.  `ts` is the `datetime.now()` timestamp. -/
def PhaseContext.record_transition {E Phase : Type} (value : Phase → String)
    (ctx : PhaseContext E) (fromP toP : Phase) (reason : String)
    (is_backward : Bool) (ts : Nat) : PhaseContext E :=
  let record : TransitionRecord :=
    { from_phase := value fromP, to_phase := value toP, reason := reason,
      is_backward := is_backward, timestamp := ts }
  { ctx with
    transition_history := ctx.transition_history ++ [record],
    backward_trigger := if is_backward then some reason else none,
    backward_trigger_detail := if is_backward then ctx.backward_trigger_detail else none }

/-! ## Checkpoints (`server/agents/base.py`) -/

/-- `Checkpoint`: a blocking checkpoint where user approval is required. -/
structure Checkpoint where
  id : String
  message : String
  options : List String := ["Proceed", "Modify", "Cancel"]
  requires_approval : Bool := true
deriving DecidableEq, Repr

/-- `CheckpointResponse`.  `modifications` (a free-form dict) is modelled as
an association list. -/
structure CheckpointResponse where
  approved : Bool
  action : String := "proceed"
  modifications : Option (List (String × String)) := none
  rejection_reason : Option String := none
deriving DecidableEq, Repr

/-- `BaseForgeAgent._handle_checkpoint`: dispatch to the configured handler,
auto-approve when none is configured. -/
def handleCheckpoint (handler : Option (Checkpoint → CheckpointResponse))
    (cp : Checkpoint) : CheckpointResponse :=
  match handler with
  | some h => h cp
  | none => { approved := true }

/-! ## Agent graph (the abstract properties each subclass supplies) -/

/-- The static data a `BaseForgeAgent` subclass declares: the transition
table, initial and terminal phases, and the phase enum's `.value` projection
together with the `Phase(value)` constructor (`ofValue` is `none` exactly when
`Phase(value)` would raise `ValueError`). -/
structure AgentGraph (Phase : Type) where
  phase_transitions : List (PhaseTransition Phase)
  initial_phase : Phase
  complete_phase : Phase
  value : Phase → String
  ofValue : String → Option Phase

/-- The mutable state of an initialized `BaseForgeAgent`: `current_phase`,
`phase_context` and the `_transition_reason` attribute.  `clock` models the
wall clock feeding `datetime.now()`. -/
structure AgentState (Phase E : Type) where
  current_phase : Phase
  phase_context : PhaseContext E
  transition_reason : Option String := none
  clock : Nat := 0
deriving DecidableEq, Repr

/-! ## Stable sort (model of Python's stable `sorted`) -/

/-- Insert into a sorted list in front of the first element `b` with
`le a b`. -/
def orderedInsert {α : Type} (le : α → α → Bool) (a : α) : List α → List α
  | [] => [a]
  | b :: l => if le a b then a :: b :: l else b :: orderedInsert le a l

/-- Stable insertion sort: elements with equal keys keep their original
relative order, as Python's `sorted` guarantees. -/
def stableSort {α : Type} (le : α → α → Bool) : List α → List α
  | [] => []
  | a :: l => orderedInsert le a (stableSort le l)

/-- The sort key used by `_evaluate_transitions`:
`(-int(t.is_backward), -t.priority)`. -/
def transKey {Phase : Type} (t : PhaseTransition Phase) : Int × Int :=
  (-(if t.is_backward then 1 else 0), -t.priority)

/-- Lexicographic comparison of sort keys (Python tuple comparison). -/
def transLe {Phase : Type} (a b : PhaseTransition Phase) : Bool :=
  decide ((transKey a).1 < (transKey b).1 ∨
    ((transKey a).1 = (transKey b).1 ∧ (transKey a).2 ≤ (transKey b).2))

/-! ## Transition evaluation (`BaseForgeAgent._evaluate_transitions`) -/

/-- `BaseForgeAgent._evaluate_transitions`, with the subclass's
`_evaluate_transition_condition` passed as `cond`.  The Python method returns
the next phase and mutates `self._transition_reason`; the model returns the
pair (next phase, `_transition_reason` afterwards).  When awaiting user input
or when no condition fires, `_transition_reason` is left untouched. -/
def evaluateTransitions {Phase E : Type} [DecidableEq Phase]
    (A : AgentGraph Phase) (cond : PhaseTransition Phase → PhaseContext E → Bool)
    (s : AgentState Phase E) : Phase × Option String :=
  if s.phase_context.awaiting_user_input then
    (s.current_phase, s.transition_reason)
  else
    let current_transitions :=
      A.phase_transitions.filter (fun t => decide (t.from_phase = s.current_phase))
    let sorted_transitions := stableSort transLe current_transitions
    match sorted_transitions.find? (fun t => cond t s.phase_context) with
    | some t => (t.to_phase, some t.condition)
    | none => (s.current_phase, s.transition_reason)

/-- `BaseForgeAgent._is_backward_transition`: the flag of the first declared
transition matching the (from, to) pair, `false` when none matches. -/
def isBackwardTransition {Phase : Type} [DecidableEq Phase]
    (A : AgentGraph Phase) (fromP toP : Phase) : Bool :=
  match A.phase_transitions.find?
      (fun t => decide (t.from_phase = fromP) && decide (t.to_phase = toP)) with
  | some t => t.is_backward
  | none => false

/-! ## SSE events (`server/api/streaming.py` and `process_message`) -/

/-- The SSE events the engine itself emits, plus an opaque constructor for
the domain events yielded by phase executors and their tools.  Phase fields
carry `.value` strings, as in the Python payload dicts. -/
inductive SSEEvent where
  | thinking (message : String)
  | phaseChanged (fromPhase toPhase : String) (isBackward : Bool) (reason : Option String)
  | awaitingInput (prompt : String) (phase : String)
  | completed (summary : String)
  | domain (type : String) (payload : String)
deriving DecidableEq, Repr

/-- The message of the re-entry `agent_thinking` event:
`f"Returning to {phase.value}: {backward_trigger}"` (Python renders a missing
trigger as `"None"`). -/
def reentryMessage (phaseValue : String) (trigger : Option String) : String :=
  "Returning to " ++ phaseValue ++ ": " ++
    (match trigger with | some s => s | none => "None")

/-- `self._transition_reason or "unknown"`: Python `or` falls through on
`None` and on the empty string. -/
def orUnknown (reason : Option String) : String :=
  match reason with
  | some r => if r = "" then "unknown" else r
  | none => "unknown"

/-! ## The execution loop (`BaseForgeAgent.process_message`) -/

/-- Outcome of one `_execute_phase` call: the events it yielded, the
(possibly partially) mutated context it leaves behind, and the exception it
raised, if any.  A raising executor keeps the mutations already applied. -/
structure ExecResult (E : Type) where
  ctx : PhaseContext E
  events : List SSEEvent
  error : Option String := none
deriving DecidableEq, Repr

/-- The phase executor contract: `_execute_phase(phase, message, context)`,
with the turn-context dict folded into the closure. -/
def Executor (Phase E : Type) : Type :=
  Phase → String → PhaseContext E → ExecResult E

/-- Outcome of one iteration of the `while` loop in `process_message`. -/
inductive StepResult (Phase E : Type) where
  | cont (events : List SSEEvent) (s : AgentState Phase E)
  | stop (events : List SSEEvent) (s : AgentState Phase E)
  | failed (events : List SSEEvent) (s : AgentState Phase E) (e : String)
deriving DecidableEq, Repr

/-- The re-entry notice emitted at the top of each loop iteration when the
current phase has been visited more than once. -/
def reentryEvents {Phase E : Type} (A : AgentGraph Phase)
    (s : AgentState Phase E) : List SSEEvent :=
  if s.phase_context.get_visit_count A.value s.current_phase > 1 then
    [.thinking (reentryMessage (A.value s.current_phase) s.phase_context.backward_trigger)]
  else []

/-- One iteration of the `process_message` loop body, for a state with
`current_phase ≠ complete_phase`: emit the re-entry notice on a revisit, run
the executor (propagating its exception), evaluate transitions, and either
record/announce the transition and continue, or emit the awaiting-input event
and stop.  `prompt` is `_get_awaiting_input_prompt`. -/
def processStep {Phase E : Type} [DecidableEq Phase] (A : AgentGraph Phase)
    (executor : Executor Phase E)
    (cond : PhaseTransition Phase → PhaseContext E → Bool)
    (prompt : PhaseContext E → String) (message : String)
    (s : AgentState Phase E) : StepResult Phase E :=
  let preEvents : List SSEEvent := reentryEvents A s
  let r := executor s.current_phase message s.phase_context
  match r.error with
  | some e => .failed (preEvents ++ r.events) { s with phase_context := r.ctx } e
  | none =>
    let s1 : AgentState Phase E := { s with phase_context := r.ctx }
    let next := (evaluateTransitions A cond s1).1
    let reason := (evaluateTransitions A cond s1).2
    if next = s1.current_phase then
      let ev : SSEEvent := .awaitingInput (prompt s1.phase_context) (A.value s1.current_phase)
      .stop (preEvents ++ r.events ++ [ev]) { s1 with transition_reason := reason }
    else
      let is_b := isBackwardTransition A s1.current_phase next
      let ctx1 := s1.phase_context.record_transition A.value s1.current_phase next
        (orUnknown reason) is_b s.clock
      let ev : SSEEvent := .phaseChanged (A.value s1.current_phase) (A.value next) is_b reason
      let ctx2 := ctx1.increment_visit A.value next
      .cont (preEvents ++ r.events ++ [ev])
        { current_phase := next, phase_context := ctx2,
          transition_reason := none, clock := s.clock + 1 }

/-- How a turn's loop ended: normally, by a propagated executor exception, or
truncated by fuel while the Python loop would still be running. -/
inductive RunOutcome where
  | ok
  | errored (e : String)
  | fuelOut
deriving DecidableEq, Repr

/-- The `while self.current_phase != self.complete_phase` loop of
`process_message`, with `fuel` bounding the number of iterations (the Python
loop has no such bound; `fuelOut` marks a truncated run). -/
def processLoop {Phase E : Type} [DecidableEq Phase] (fuel : Nat)
    (A : AgentGraph Phase) (executor : Executor Phase E)
    (cond : PhaseTransition Phase → PhaseContext E → Bool)
    (prompt : PhaseContext E → String) (message : String)
    (s : AgentState Phase E) : List SSEEvent × AgentState Phase E × RunOutcome :=
  match fuel with
  | 0 => ([], s, .fuelOut)
  | fuel + 1 =>
    if s.current_phase = A.complete_phase then ([], s, .ok)
    else
      match processStep A executor cond prompt message s with
      | .failed evs s' e => (evs, s', .errored e)
      | .stop evs s' => (evs, s', .ok)
      | .cont evs s' =>
        let rest := processLoop fuel A executor cond prompt message s'
        (evs ++ rest.1, rest.2.1, rest.2.2)

/-- The flag-clearing prologue of `process_message`: a new message means the
user has responded, so `awaiting_user_input` is cleared. -/
def clearAwaiting {Phase E : Type} (s : AgentState Phase E) : AgentState Phase E :=
  if s.phase_context.awaiting_user_input then
    { s with phase_context := { s.phase_context with awaiting_user_input := false } }
  else s

/-- `BaseForgeAgent.process_message`: clear the awaiting latch, run the phase
loop, and emit the completion event when the terminal phase was reached.
`summary` is `_generate_completion_summary`. -/
def processMessage {Phase E : Type} [DecidableEq Phase] (fuel : Nat)
    (A : AgentGraph Phase) (executor : Executor Phase E)
    (cond : PhaseTransition Phase → PhaseContext E → Bool)
    (prompt : PhaseContext E → String) (summary : PhaseContext E → String)
    (message : String) (s : AgentState Phase E) :
    List SSEEvent × AgentState Phase E × RunOutcome :=
  let s0 := clearAwaiting s
  let r := processLoop fuel A executor cond prompt message s0
  match r.2.2 with
  | .ok =>
    if r.2.1.current_phase = A.complete_phase then
      (r.1 ++ [.completed (summary r.2.1.phase_context)], r.2.1, .ok)
    else r
  | _ => r

/-- `BaseForgeAgent.initialize`: set the initial phase, create a fresh phase
context via the subclass's `_create_phase_context` (`mkCtx`), and record the
initial phase visit. -/
def initializeAgent {Phase E : Type} (A : AgentGraph Phase)
    (mkCtx : PhaseContext E) : AgentState Phase E :=
  { current_phase := A.initial_phase,
    phase_context := mkCtx.increment_visit A.value A.initial_phase,
    transition_reason := none, clock := 0 }

/-- The states an agent can reach by `initialize` followed by any sequence of
`process_message` turns (for a fixed subclass: executor, condition
dispatcher, prompts and initial context). -/
inductive Reachable {Phase E : Type} [DecidableEq Phase] (A : AgentGraph Phase)
    (executor : Executor Phase E)
    (cond : PhaseTransition Phase → PhaseContext E → Bool)
    (prompt : PhaseContext E → String) (summary : PhaseContext E → String)
    (mkCtx : PhaseContext E) : AgentState Phase E → Prop where
  | init : Reachable A executor cond prompt summary mkCtx (initializeAgent A mkCtx)
  | step (s : AgentState Phase E) (fuel : Nat) (message : String) :
      Reachable A executor cond prompt summary mkCtx s →
      Reachable A executor cond prompt summary mkCtx
        (processMessage fuel A executor cond prompt summary message s).2.1

/-! ## Research agent (`server/agents/research/phases.py`, `.../agent.py`) -/

/-- `ResearchPhase` enum. -/
inductive ResearchPhase where
  | DECOMPOSE
  | ANSWER
  | RISE_ABOVE
  | EXPAND
  | COMPLETE
deriving DecidableEq, Repr

/-- `ResearchPhase.value`. -/
def ResearchPhase.value : ResearchPhase → String
  | .DECOMPOSE => "decompose"
  | .ANSWER => "answer"
  | .RISE_ABOVE => "rise_above"
  | .EXPAND => "expand"
  | .COMPLETE => "complete"

/-- `ResearchPhase(v)`: the enum constructor, `none` when the value is absent
from the enumeration (Python raises `ValueError`). -/
def ResearchPhase.ofValue : String → Option ResearchPhase
  | "decompose" => some .DECOMPOSE
  | "answer" => some .ANSWER
  | "rise_above" => some .RISE_ABOVE
  | "expand" => some .EXPAND
  | "complete" => some .COMPLETE
  | _ => none

/-- `RESEARCH_TRANSITIONS`, in declaration order. -/
def RESEARCH_TRANSITIONS : List (PhaseTransition ResearchPhase) :=
  [ { from_phase := .DECOMPOSE, to_phase := .ANSWER,
      condition := "question_tree_approved", is_backward := false, priority := 0 },
    { from_phase := .ANSWER, to_phase := .RISE_ABOVE,
      condition := "high_priority_questions_answered", is_backward := false, priority := 0 },
    { from_phase := .RISE_ABOVE, to_phase := .EXPAND,
      condition := "category_insights_generated", is_backward := false, priority := 0 },
    { from_phase := .EXPAND, to_phase := .COMPLETE,
      condition := "frontier_populated", is_backward := false, priority := 0 },
    { from_phase := .ANSWER, to_phase := .DECOMPOSE,
      condition := "new_category_discovered", is_backward := true, priority := 10 },
    { from_phase := .RISE_ABOVE, to_phase := .ANSWER,
      condition := "synthesis_requires_more_answers", is_backward := true, priority := 10 },
    { from_phase := .RISE_ABOVE, to_phase := .DECOMPOSE,
      condition := "synthesis_reveals_missing_category", is_backward := true, priority := 5 } ]

/-- `Source` (persistence model); pydantic `model_dump`/reconstruct
round-trips, so its serialized form is the value itself. -/
structure Source where
  title : String
  url : Option String := none
  credibility : String
  snippet : Option String := none
deriving DecidableEq, Repr

/-- `CodeContent` (persistence model). -/
structure CodeContent where
  file : String
  content : String
  language : Option String := none
deriving DecidableEq, Repr

/-- `Question` (persistence model); `canvas` is an opaque payload. -/
structure Question where
  id : String
  question : String
  status : String := "open"
  answer : Option String := none
  sources : List Source := []
  category_id : Option String := none
  code : Option CodeContent := none
  canvas : Option String := none
deriving DecidableEq, Repr

/-- `CategoryQuestion` (persistence model). -/
structure CategoryQuestion where
  id : String
  category : String
  insight : Option String := none
  question_ids : List String := []
deriving DecidableEq, Repr

/-- `AdjacentQuestion` (persistence model). -/
structure AdjacentQuestion where
  id : String
  question : String
  discovered_from : String
deriving DecidableEq, Repr

/-- The fields `ResearchPhaseContext` adds to `BasePhaseContext`.  Python
sets are kept as `List String` in iteration order. -/
structure ResearchExt where
  categories : List CategoryQuestion := []
  questions : List Question := []
  question_tree_presented : Bool := false
  question_tree_approved : Bool := false
  answered_question_ids : List String := []
  skipped_question_ids : List String := []
  sources_by_question : List (String × List Source) := []
  high_priority_complete : Bool := false
  category_insights : List (String × String) := []
  insights_complete : Bool := false
  adjacent_questions : List AdjacentQuestion := []
  frontier_populated : Bool := false
  new_category_pending : Option String := none
  unanswered_for_synthesis : List String := []
deriving DecidableEq, Repr

/-- `ResearchPhaseContext = BasePhaseContext + ResearchExt`. -/
abbrev ResearchPhaseContext := PhaseContext ResearchExt

/-- The dictionary produced by `ResearchPhaseContext.to_dict`: exactly the
keys the source writes — note that neither `awaiting_user_input` nor
`transition_history` nor `sources_by_question` nor the pending backward
trigger flags are among them. -/
structure ResearchCtxDict where
  phase_visits : List (String × Nat)
  backward_trigger : Option String
  backward_trigger_detail : Option String
  categories : List CategoryQuestion
  questions : List Question
  question_tree_presented : Bool
  question_tree_approved : Bool
  answered_question_ids : List String
  skipped_question_ids : List String
  high_priority_complete : Bool
  category_insights : List (String × String)
  insights_complete : Bool
  adjacent_questions : List AdjacentQuestion
  frontier_populated : Bool
deriving DecidableEq, Repr

/-- `ResearchPhaseContext.to_dict`. -/
def researchToDict (ctx : ResearchPhaseContext) : ResearchCtxDict :=
  { phase_visits := ctx.phase_visits,
    backward_trigger := ctx.backward_trigger,
    backward_trigger_detail := ctx.backward_trigger_detail,
    categories := ctx.ext.categories,
    questions := ctx.ext.questions,
    question_tree_presented := ctx.ext.question_tree_presented,
    question_tree_approved := ctx.ext.question_tree_approved,
    answered_question_ids := ctx.ext.answered_question_ids,
    skipped_question_ids := ctx.ext.skipped_question_ids,
    high_priority_complete := ctx.ext.high_priority_complete,
    category_insights := ctx.ext.category_insights,
    insights_complete := ctx.ext.insights_complete,
    adjacent_questions := ctx.ext.adjacent_questions,
    frontier_populated := ctx.ext.frontier_populated }

/-- `ResearchPhaseContext.from_dict`: starts from `cls()` (all defaults, in
particular `awaiting_user_input = False` and an empty history) and assigns
the serialized fields. -/
def researchFromDict (d : ResearchCtxDict) : ResearchPhaseContext :=
  { phase_visits := d.phase_visits,
    transition_history := [],
    backward_trigger := d.backward_trigger,
    backward_trigger_detail := d.backward_trigger_detail,
    awaiting_user_input := false,
    ext :=
      { categories := d.categories,
        questions := d.questions,
        question_tree_presented := d.question_tree_presented,
        question_tree_approved := d.question_tree_approved,
        answered_question_ids := d.answered_question_ids,
        skipped_question_ids := d.skipped_question_ids,
        sources_by_question := [],
        high_priority_complete := d.high_priority_complete,
        category_insights := d.category_insights,
        insights_complete := d.insights_complete,
        adjacent_questions := d.adjacent_questions,
        frontier_populated := d.frontier_populated,
        new_category_pending := none,
        unanswered_for_synthesis := [] } }

/-- `TransitionRecord.to_dict` (camelCase keys; the isoformat timestamp is
the identity on the `Nat` model). -/
structure TransitionRecordDict where
  fromPhase : String
  toPhase : String
  reason : String
  isBackward : Bool
  timestamp : Nat
deriving DecidableEq, Repr

/-- `TransitionRecord.to_dict`. -/
def TransitionRecord.to_dict (r : TransitionRecord) : TransitionRecordDict :=
  { fromPhase := r.from_phase, toPhase := r.to_phase, reason := r.reason,
    isBackward := r.is_backward, timestamp := r.timestamp }

/-- The record reconstruction in `_restore_transition_history`. -/
def recordFromDict (d : TransitionRecordDict) : TransitionRecord :=
  { from_phase := d.fromPhase, to_phase := d.toPhase, reason := d.reason,
    is_backward := d.isBackward, timestamp := d.timestamp }

/-- The persisted state produced by `BaseForgeAgent.get_state` for the
research agent.  `current_phase` is `None` only for an uninitialized agent. -/
structure PersistedState where
  agent_type : String
  current_phase : Option String
  phase_context : ResearchCtxDict
  transition_history : List TransitionRecordDict
deriving DecidableEq, Repr

/-- `BaseForgeAgent.get_state` with the research agent's
`_serialize_phase_context` override (`phase_context.to_dict()`); the model
covers initialized agents, whose `current_phase` is always set. -/
def researchGetState (s : AgentState ResearchPhase ResearchExt) : PersistedState :=
  { agent_type := "research",
    current_phase := some (ResearchPhase.value s.current_phase),
    phase_context := researchToDict s.phase_context,
    transition_history := s.phase_context.transition_history.map TransitionRecord.to_dict }

/-- `BaseForgeAgent.restore_state` with the research agent's
`_restore_phase_context` override: `self.Phase(state["current_phase"])`
raises `ValueError` on an unknown (or missing) phase name; otherwise the
context is rebuilt by `from_dict` and the history re-parsed. -/
def researchRestoreState (st : PersistedState) :
    Except String (AgentState ResearchPhase ResearchExt) :=
  match st.current_phase with
  | none => .error "ValueError: None is not a valid ResearchPhase"
  | some v =>
    match ResearchPhase.ofValue v with
    | none => .error ("ValueError: " ++ v ++ " is not a valid ResearchPhase")
    | some p =>
      let ctx := researchFromDict st.phase_context
      let ctx := { ctx with
        transition_history := st.transition_history.map recordFromDict }
      .ok { current_phase := p, phase_context := ctx,
            transition_reason := none, clock := 0 }

/-- The research agent's `AgentGraph`. -/
def researchGraph : AgentGraph ResearchPhase :=
  { phase_transitions := RESEARCH_TRANSITIONS,
    initial_phase := .DECOMPOSE,
    complete_phase := .COMPLETE,
    value := ResearchPhase.value,
    ofValue := ResearchPhase.ofValue }

/-- `ResearchAgent._evaluate_transition_condition`: the string-keyed
condition dispatcher over the research context. -/
def researchCond (t : PhaseTransition ResearchPhase)
    (ctx : ResearchPhaseContext) : Bool :=
  if t.condition = "question_tree_approved" then ctx.ext.question_tree_approved
  else if t.condition = "high_priority_questions_answered" then ctx.ext.high_priority_complete
  else if t.condition = "category_insights_generated" then ctx.ext.insights_complete
  else if t.condition = "frontier_populated" then ctx.ext.frontier_populated
  else if t.condition = "new_category_discovered" then ctx.ext.new_category_pending.isSome
  else if t.condition = "synthesis_requires_more_answers" then
    decide (ctx.ext.unanswered_for_synthesis.length > 0)
  else if t.condition = "synthesis_reveals_missing_category" then false
  else false

/-! ## String helpers used by the checkpoint gates -/

/-- `d.get(k)` (no default) for a string-keyed dict. -/
def dictGetOpt {β : Type} (d : List (String × β)) (k : String) : Option β :=
  (d.find? (fun kv => kv.1 == k)).map (fun kv => kv.2)

/-- Python `str.capitalize()`: first character upper-cased, the rest
lower-cased. -/
def pyCapitalize (s : String) : String :=
  match s.data with
  | [] => ""
  | c :: cs => String.mk (c.toUpper :: cs.map Char.toLower)

/-- Python `s[:n]`. -/
def pyTake (n : Nat) (s : String) : String :=
  String.mk (s.data.take n)

/-- Python `sep.join(parts)`. -/
def joinWith (sep : String) : List String → String
  | [] => ""
  | x :: xs => xs.foldl (fun acc y => acc ++ sep ++ y) x

/-! ## Understand agent checkpoint gate
(`server/agents/understand/agent.py`, `.../phases.py`, `.../prompts.py`) -/

/-- `UnderstandPhase` enum. -/
inductive UnderstandPhase where
  | SELF_ASSESS
  | CONFIGURE
  | CLASSIFY
  | CALIBRATE
  | DIAGNOSE
  | SLO_COMPLETE
  | COMPLETE
deriving DecidableEq, Repr

/-- `SLO` (persistence model). -/
structure SLO where
  id : String
  statement : String
  frame : String
  in_scope : List String := []
  out_of_scope : List String := []
  sample_transfer_check : String := ""
  estimated_rounds : Int := 4
deriving DecidableEq, Repr

/-- `KnowledgeStateFacet` (persistence model). -/
structure KnowledgeStateFacet where
  facet : String
  status : String := "not_tested"
  evidence : String := ""
  rounds : Nat := 0
  last_result : Option String := none
deriving DecidableEq, Repr

/-- The fields of `UnderstandPhaseContext` read or written by
`UnderstandAgent._handle_phase_checkpoint`; the remaining domain fields of
the dataclass are not touched by the embedded functions and are omitted. -/
structure UnderstandExt where
  pace : String := "standard"
  style : String := "balanced"
  learner_context : String := ""
  session_configured : Bool := false
  slos : List SLO := []
  selected_slo_ids : List String := []
  slos_confirmed : Bool := false
  current_slo_index : Nat := 0
  current_slo_calibrated : Bool := false
  knowledge_states : List (String × List (String × KnowledgeStateFacet)) := []
deriving DecidableEq, Repr

/-- `UnderstandPhaseContext = BasePhaseContext + UnderstandExt`. -/
abbrev UnderstandPhaseContext := PhaseContext UnderstandExt

/-- `UnderstandPhaseContext.get_current_slo`. -/
def understandGetCurrentSlo (ctx : UnderstandPhaseContext) : Option SLO :=
  if ctx.ext.selected_slo_ids = [] then none
  else if ctx.ext.selected_slo_ids.length ≤ ctx.ext.current_slo_index then none
  else
    match ctx.ext.selected_slo_ids.get? ctx.ext.current_slo_index with
    | none => none
    | some slo_id => ctx.ext.slos.find? (fun s => s.id == slo_id)

/-- `UnderstandPhaseContext.get_current_knowledge_state`. -/
def understandGetCurrentKnowledgeState (ctx : UnderstandPhaseContext) :
    Option (List (String × KnowledgeStateFacet)) :=
  match understandGetCurrentSlo ctx with
  | some slo => dictGetOpt ctx.ext.knowledge_states slo.id
  | none => none

/-- `CONFIGURE_CHECKPOINT_MESSAGE.format(...)`. -/
def configureCheckpointMessage (pace style learner_context : String) : String :=
  "Session Configuration\n\n**Pace:** " ++ pace ++ "\n**Style:** " ++ style ++
  "\n**Your Context:** " ++ learner_context ++
  "\n\nI\x27ll start by breaking down the topic into learning objectives, then we\x27ll calibrate where you\x27re starting from.\n\nReady to begin?"

/-- `CLASSIFY_CHECKPOINT_MESSAGE.format(...)` (understand agent). -/
def classifyCheckpointMessage (slo_list : String) (slo_count estimated_rounds : Nat) : String :=
  "Learning Plan Ready\n\n**Selected SLOs:**\n" ++ slo_list ++
  "\n\n**Estimated session:** " ++ toString slo_count ++ " SLOs × ~10 rounds = ~" ++
  toString estimated_rounds ++ " exchanges" ++
  "\n\nFor each objective, I\x27ll:\n1. Ask 3 quick calibration questions to see where you\x27re starting\n2. Guide you through 7-10 diagnostic rounds\n3. Verify with a transfer challenge" ++
  "\n\nDoes this plan work? You can adjust SLOs now, or steer with /skip, /pause anytime."

/-- `CALIBRATE_CHECKPOINT_MESSAGE.format(...)`. -/
def calibrateCheckpointMessage (facet_table weakest_facets : String) : String :=
  "Calibration Complete\n\nHere\x27s where you\x27re starting:\n\n| Facet | Status | What I Observed |\n|-------|--------|-----------------|\n" ++
  facet_table ++
  "\n\n**My plan:** Focus on " ++ weakest_facets ++ ", then build toward transfer." ++
  "\n\nReady to dive into the diagnostic rounds? (Remember: /pause, /status, /deeper available anytime)"

/-- `UnderstandAgent._handle_phase_checkpoint`.  Returns the updated context
together with the list of (checkpoint, response) gate interactions of the
turn — empty when no checkpoint was requested (so nothing was approved,
automatically or otherwise). -/
def understandHandlePhaseCheckpoint
    (handler : Option (Checkpoint → CheckpointResponse))
    (phase : UnderstandPhase) (ctx : UnderstandPhaseContext) :
    UnderstandPhaseContext × List (Checkpoint × CheckpointResponse) :=
  if ctx.awaiting_user_input then (ctx, [])
  else if phase = .CONFIGURE ∧ ¬ctx.ext.session_configured then
    let cp : Checkpoint :=
      { id := "configure_approval",
        message := configureCheckpointMessage ctx.ext.pace ctx.ext.style
          (if ctx.ext.learner_context = "" then "(none provided)" else ctx.ext.learner_context),
        options := ["Ready to begin", "Adjust preferences"] }
    let resp := handleCheckpoint handler cp
    let ctx' := if resp.approved then
        { ctx with ext := { ctx.ext with session_configured := true } }
      else ctx
    (ctx', [(cp, resp)])
  else if phase = .CLASSIFY ∧ ¬ctx.ext.slos_confirmed then
    let slo_list := joinWith "\n"
      (ctx.ext.slos.enum.map (fun is => toString (is.1 + 1) ++ ". " ++ is.2.statement))
    let cp : Checkpoint :=
      { id := "classify_approval",
        message := classifyCheckpointMessage slo_list ctx.ext.slos.length
          (ctx.ext.slos.length * 10),
        options := ["Proceed with plan", "Adjust SLOs"] }
    let resp := handleCheckpoint handler cp
    let ctx' := if resp.approved then
        { ctx with ext := { ctx.ext with
            selected_slo_ids := ctx.ext.slos.map (fun s => s.id),
            slos_confirmed := true } }
      else ctx
    (ctx', [(cp, resp)])
  else if phase = .CALIBRATE ∧ ctx.ext.current_slo_calibrated then
    let items := (understandGetCurrentKnowledgeState ctx).getD []
    let facet_table := joinWith "\n" (items.map (fun fs =>
      "| " ++ pyCapitalize fs.1 ++ " | " ++ fs.2.status ++ " | " ++
      pyTake 50 fs.2.evidence ++ "... |"))
    let weakest := (items.filter (fun fs =>
      fs.2.status == "missing" || fs.2.status == "shaky")).map (fun fs => fs.1)
    let cp : Checkpoint :=
      { id := "calibrate_approval",
        message := calibrateCheckpointMessage facet_table
          (if weakest = [] then "none identified" else joinWith ", " weakest),
        options := ["Start diagnostic rounds", "Re-calibrate"] }
    let resp := handleCheckpoint handler cp
    (ctx, [(cp, resp)])
  else (ctx, [])

/-! ## Build agent checkpoint gate
(`server/agents/build/agent.py`, `.../phases.py`, `.../prompts.py`) -/

/-- `BuildPhase` enum. -/
inductive BuildPhase where
  | ANCHOR_DISCOVERY
  | CLASSIFY
  | SEQUENCE_DESIGN
  | CONSTRUCTION
  | SLO_COMPLETE
  | CONSOLIDATION
  | COMPLETE
deriving DecidableEq, Repr

/-- `Anchor` (`server/agents/build/phases.py`). -/
structure Anchor where
  id : String
  description : String
  strength : String
  evidence : String
deriving DecidableEq, Repr

/-- `ConstructionSLO` (`server/agents/build/phases.py`). -/
structure ConstructionSLO where
  id : String
  statement : String
  frame : String
  anchor_id : String
  in_scope : List String
  out_of_scope : List String
  code_mode_likely : Bool := false
  estimated_rounds : Int := 5
deriving DecidableEq, Repr

/-- The fields of `BuildPhaseContext` read by
`BuildAgent._handle_phase_checkpoint` and
`BuildAgent._evaluate_transition_condition`; the remaining domain fields are
not touched by the embedded functions and are omitted. -/
structure BuildExt where
  anchors : List Anchor := []
  primary_anchor_id : Option String := none
  anchors_confirmed : Bool := false
  slos : List ConstructionSLO := []
  selected_slo_ids : List String := []
  slos_confirmed : Bool := false
  sequences_designed : Bool := false
  current_slo_index : Nat := 0
  slo_status : List (String × String) := []
  completed_slo_ids : List String := []
  skipped_slo_ids : List String := []
  consolidation_complete : Bool := false
deriving DecidableEq, Repr

/-- `BuildPhaseContext = BasePhaseContext + BuildExt`. -/
abbrev BuildPhaseContext := PhaseContext BuildExt

/-- `BuildPhaseContext.get_anchor` (`None` argument matches nothing). -/
def getAnchor (anchors : List Anchor) (anchor_id : Option String) : Option Anchor :=
  anchors.find? (fun a => anchor_id == some a.id)

/-- `ANCHOR_CHECKPOINT_MESSAGE.format(...)`. -/
def anchorCheckpointMessage (anchor_list primary_anchor : String) : String :=
  "Anchor Discovery Complete\n\n**Your starting points (anchors):**\n" ++ anchor_list ++
  "\n\n**Primary anchor we\x27ll build from:**\n" ++ primary_anchor ++
  "\n\nReady to see what we\x27ll construct?"

/-- `CLASSIFY_CHECKPOINT_MESSAGE.format(...)` (build agent). -/
def buildClassifyCheckpointMessage (slo_list : String) (estimated_rounds : Int) : String :=
  "Learning Plan Ready\n\n**What we\x27ll build together:**\n" ++ slo_list ++
  "\n\n**Estimated session:** " ++ toString estimated_rounds ++ " construction rounds" ++
  "\n\n**How it works:**\n- I\x27ll give you scenarios and questions that connect to what you know\n- You\x27ll construct the concepts—I won\x27t just tell you\n- If you get stuck, I\x27ll give you more structure (not answers)\n- We\x27ll use code examples where they help" ++
  "\n\nReady to start building?"

/-- `BuildAgent._handle_phase_checkpoint`.  Same interaction-list convention
as the understand agent's gate; neither build branch mutates the context. -/
def buildHandlePhaseCheckpoint
    (handler : Option (Checkpoint → CheckpointResponse))
    (phase : BuildPhase) (ctx : BuildPhaseContext) :
    BuildPhaseContext × List (Checkpoint × CheckpointResponse) :=
  if ctx.awaiting_user_input then (ctx, [])
  else if phase = .ANCHOR_DISCOVERY ∧ ctx.ext.anchors_confirmed then
    let primary := getAnchor ctx.ext.anchors ctx.ext.primary_anchor_id
    let anchor_list := joinWith "\n" (ctx.ext.anchors.map (fun a =>
      "- " ++ a.description ++ " (" ++ a.strength ++ ")"))
    let cp : Checkpoint :=
      { id := "anchor_approval",
        message := anchorCheckpointMessage anchor_list
          (match primary with | some a => a.description | none => "(none)"),
        options := ["Ready to proceed", "Explore more anchors"] }
    let resp := handleCheckpoint handler cp
    (ctx, [(cp, resp)])
  else if phase = .CLASSIFY ∧ ctx.ext.slos_confirmed then
    let slo_list := joinWith "\n"
      (((ctx.ext.slos.enum).filter (fun is =>
          ctx.ext.selected_slo_ids.contains is.2.id)).map (fun is =>
        toString (is.1 + 1) ++ ". " ++ is.2.statement ++ " (connects to: " ++
        (match getAnchor ctx.ext.anchors (some is.2.anchor_id) with
         | some a => a.description
         | none => "unknown") ++ ")"))
    let estimated := ((ctx.ext.slos.filter (fun s =>
      ctx.ext.selected_slo_ids.contains s.id)).map (fun s => s.estimated_rounds)).sum
    let cp : Checkpoint :=
      { id := "classify_approval",
        message := buildClassifyCheckpointMessage slo_list estimated,
        options := ["Start building", "Adjust SLOs"] }
    let resp := handleCheckpoint handler cp
    (ctx, [(cp, resp)])
  else (ctx, [])

/-- `BuildPhase.value`. -/
def BuildPhase.value : BuildPhase → String
  | .ANCHOR_DISCOVERY => "anchor_discovery"
  | .CLASSIFY => "classify"
  | .SEQUENCE_DESIGN => "sequence_design"
  | .CONSTRUCTION => "construction"
  | .SLO_COMPLETE => "slo_complete"
  | .CONSOLIDATION => "consolidation"
  | .COMPLETE => "complete"

/-- `BuildPhase(v)`: `none` when the value is absent from the enumeration. -/
def BuildPhase.ofValue : String → Option BuildPhase
  | "anchor_discovery" => some .ANCHOR_DISCOVERY
  | "classify" => some .CLASSIFY
  | "sequence_design" => some .SEQUENCE_DESIGN
  | "construction" => some .CONSTRUCTION
  | "slo_complete" => some .SLO_COMPLETE
  | "consolidation" => some .CONSOLIDATION
  | "complete" => some .COMPLETE
  | _ => none

/-- `BUILD_TRANSITIONS` (`server/agents/build/phases.py`), in declaration
order. -/
def BUILD_TRANSITIONS : List (PhaseTransition BuildPhase) :=
  [ { from_phase := .ANCHOR_DISCOVERY, to_phase := .CLASSIFY,
      condition := "anchors_confirmed", is_backward := false, priority := 0 },
    { from_phase := .CLASSIFY, to_phase := .SEQUENCE_DESIGN,
      condition := "slos_selected", is_backward := false, priority := 0 },
    { from_phase := .SEQUENCE_DESIGN, to_phase := .CONSTRUCTION,
      condition := "sequence_designed", is_backward := false, priority := 0 },
    { from_phase := .CONSTRUCTION, to_phase := .SLO_COMPLETE,
      condition := "construction_verified", is_backward := false, priority := 0 },
    { from_phase := .SLO_COMPLETE, to_phase := .CONSTRUCTION,
      condition := "next_slo_available", is_backward := true, priority := 0 },
    { from_phase := .SLO_COMPLETE, to_phase := .CONSOLIDATION,
      condition := "all_slos_complete", is_backward := false, priority := 0 },
    { from_phase := .CONSOLIDATION, to_phase := .COMPLETE,
      condition := "consolidation_complete", is_backward := false, priority := 0 },
    { from_phase := .CONSTRUCTION, to_phase := .ANCHOR_DISCOVERY,
      condition := "anchor_gap_detected", is_backward := true, priority := 0 } ]

/-- The build agent's `AgentGraph`. -/
def buildGraph : AgentGraph BuildPhase :=
  { phase_transitions := BUILD_TRANSITIONS,
    initial_phase := .ANCHOR_DISCOVERY,
    complete_phase := .COMPLETE,
    value := BuildPhase.value,
    ofValue := BuildPhase.ofValue }

/-- `BuildPhaseContext.get_current_slo`. -/
def buildGetCurrentSlo (ctx : BuildPhaseContext) : Option ConstructionSLO :=
  if ctx.ext.selected_slo_ids = [] then none
  else if ctx.ext.selected_slo_ids.length ≤ ctx.ext.current_slo_index then none
  else
    match ctx.ext.selected_slo_ids.get? ctx.ext.current_slo_index with
    | none => none
    | some slo_id => ctx.ext.slos.find? (fun s => s.id == slo_id)

/-- `BuildPhaseContext.is_construction_verified` (`slo_status.get(id)` is
`None` when absent, which never equals `"constructed"`). -/
def buildIsConstructionVerified (ctx : BuildPhaseContext) : Bool :=
  match buildGetCurrentSlo ctx with
  | some slo => decide (dictGetOpt ctx.ext.slo_status slo.id = some "constructed")
  | none => false

/-- `BuildPhaseContext.has_next_slo`: some selected SLO is neither completed
nor skipped (set-difference nonemptiness over the list model). -/
def buildHasNextSlo (ctx : BuildPhaseContext) : Bool :=
  decide ((ctx.ext.selected_slo_ids.filter (fun i =>
    !(ctx.ext.completed_slo_ids.contains i) &&
    !(ctx.ext.skipped_slo_ids.contains i))).length > 0)

/-- `BuildAgent._evaluate_transition_condition`: the string-keyed condition
dispatcher over the build context.  Note `anchor_gap_detected` reads the
`backward_trigger` field that the `flag_anchor_gap` tool writes directly. -/
def buildCond (t : PhaseTransition BuildPhase) (ctx : BuildPhaseContext) : Bool :=
  if t.condition = "anchors_confirmed" then ctx.ext.anchors_confirmed
  else if t.condition = "slos_selected" then
    ctx.ext.slos_confirmed && decide (ctx.ext.selected_slo_ids.length > 0)
  else if t.condition = "sequence_designed" then ctx.ext.sequences_designed
  else if t.condition = "construction_verified" then buildIsConstructionVerified ctx
  else if t.condition = "next_slo_available" then buildHasNextSlo ctx
  else if t.condition = "all_slos_complete" then !(buildHasNextSlo ctx)
  else if t.condition = "consolidation_complete" then ctx.ext.consolidation_complete
  else if t.condition = "anchor_gap_detected" then
    decide (ctx.backward_trigger = some "anchor_gap_detected")
  else false

/-! ## Dict lemmas -/

theorem dictGet_dictSet_self {β : Type} (d : List (String × β)) (k : String)
    (v dflt : β) : dictGet (dictSet d k v) k dflt = v := by
  induction d with
  | nil => simp [dictSet, dictGet]
  | cons kv rest ih =>
    by_cases h : kv.1 = k
    · simp [dictSet, dictGet, h]
    · simp [dictSet, dictGet, h, ih]

theorem dictGet_dictSet_ne {β : Type} (d : List (String × β)) (k k' : String)
    (v : β) (dflt : β) (hne : k' ≠ k) :
    dictGet (dictSet d k v) k' dflt = dictGet d k' dflt := by
  induction d with
  | nil => simp [dictSet, dictGet, Ne.symm hne]
  | cons kv rest ih =>
    by_cases h : kv.1 = k
    · subst h
      simp [dictSet, dictGet, Ne.symm hne]
    · by_cases h2 : kv.1 = k'
      · simp [dictSet, dictGet, h, h2, hne]
      · simp [dictSet, dictGet, h, h2, ih]

/-! ## Stable sort lemmas -/

theorem mem_orderedInsert {α : Type} (le : α → α → Bool) (a x : α)
    (l : List α) : x ∈ orderedInsert le a l ↔ x = a ∨ x ∈ l := by
  induction l with
  | nil => simp [orderedInsert]
  | cons b t ih =>
    by_cases h : le a b
    · simp [orderedInsert, h]
    · simp [orderedInsert, h, ih]
      tauto

theorem mem_stableSort {α : Type} (le : α → α → Bool) (x : α) (l : List α) :
    x ∈ stableSort le l ↔ x ∈ l := by
  induction l with
  | nil => simp [stableSort]
  | cons a t ih =>
    simp [stableSort, mem_orderedInsert, ih]

theorem orderedInsert_congr {α : Type} (le le' : α → α → Bool) (a : α)
    (l : List α) (h : ∀ x ∈ l, le a x = le' a x) :
    orderedInsert le a l = orderedInsert le' a l := by
  induction l with
  | nil => rfl
  | cons b t ih =>
    have hb := h b (by simp)
    by_cases hab : le a b
    · simp [orderedInsert, hab, hb ▸ hab]
    · have : ¬(le' a b = true) := by rw [← hb]; exact hab
      simp [orderedInsert, hab, this]
      exact ih (fun x hx => h x (by simp [hx]))

theorem orderedInsert_append_of_le {α : Type} (le : α → α → Bool) (a : α)
    (xs ys : List α) (h : ∀ y ∈ ys, le a y = true) :
    orderedInsert le a (xs ++ ys) = orderedInsert le a xs ++ ys := by
  induction xs with
  | nil =>
    cases ys with
    | nil => rfl
    | cons y t => simp [orderedInsert, h y (by simp)]
  | cons x xt ih =>
    by_cases hx : le a x
    · simp [orderedInsert, hx]
    · simp [orderedInsert, hx, ih]

theorem orderedInsert_append_of_not_le {α : Type} (le : α → α → Bool) (a : α)
    (xs ys : List α) (h : ∀ x ∈ xs, le a x = false) :
    orderedInsert le a (xs ++ ys) = xs ++ orderedInsert le a ys := by
  induction xs with
  | nil => rfl
  | cons x xt ih =>
    have hx : ¬(le a x = true) := by simp [h x (by simp)]
    simp [orderedInsert, hx]
    exact ih (fun y hy => h y (by simp [hy]))

/-! ## The declared order of `_evaluate_transitions`, stated from the spec -/

/-- Descending priority, the secondary key of the spec's ordering. -/
def specPriorityLe {Phase : Type} (a b : PhaseTransition Phase) : Bool :=
  decide (b.priority ≤ a.priority)

/-- The evaluation order described by the spec: among the transitions leaving
`current`, all backward ones before all forward ones regardless of declared
priority, then by descending priority, ties broken by declaration order. -/
def specOrdered {Phase : Type} [DecidableEq Phase] (A : AgentGraph Phase)
    (current : Phase) : List (PhaseTransition Phase) :=
  let outgoing := A.phase_transitions.filter (fun t => decide (t.from_phase = current))
  stableSort specPriorityLe (outgoing.filter (fun t => t.is_backward)) ++
    stableSort specPriorityLe (outgoing.filter (fun t => !t.is_backward))

/-- The transition evaluator as the spec words it (§4.1): block while
awaiting input, otherwise take the first transition in `specOrdered` whose
condition holds, defaulting to "stay". -/
def specEvaluate {Phase E : Type} [DecidableEq Phase] (A : AgentGraph Phase)
    (cond : PhaseTransition Phase → PhaseContext E → Bool)
    (s : AgentState Phase E) : Phase × Option String :=
  if s.phase_context.awaiting_user_input then (s.current_phase, none)
  else
    match (specOrdered A s.current_phase).find? (fun t => cond t s.phase_context) with
    | some t => (t.to_phase, some t.condition)
    | none => (s.current_phase, none)

theorem transLe_of_backward_of_forward {Phase : Type}
    (a b : PhaseTransition Phase) (ha : a.is_backward = true)
    (hb : b.is_backward = false) : transLe a b = true := by
  simp [transLe, transKey, ha, hb]

theorem transLe_of_forward_of_backward {Phase : Type}
    (a b : PhaseTransition Phase) (ha : a.is_backward = false)
    (hb : b.is_backward = true) : transLe a b = false := by
  simp [transLe, transKey, ha, hb]

theorem transLe_eq_specPriorityLe_of_same {Phase : Type}
    (a b : PhaseTransition Phase) (h : a.is_backward = b.is_backward) :
    transLe a b = specPriorityLe a b := by
  cases hb : b.is_backward
  · simp [transLe, transKey, specPriorityLe, h, hb, decide_eq_decide]
  · simp [transLe, transKey, specPriorityLe, h, hb, decide_eq_decide]

/-- The Python sort key `(-int(is_backward), -priority)` orders exactly as
the spec describes: a stable sort by that key equals "stably sort the
backward ones by descending priority, then the forward ones". -/
theorem stableSort_transLe_eq_partition {Phase : Type}
    (l : List (PhaseTransition Phase)) :
    stableSort transLe l =
      stableSort specPriorityLe (l.filter (fun t => t.is_backward)) ++
        stableSort specPriorityLe (l.filter (fun t => !t.is_backward)) := by
  induction l with
  | nil => rfl
  | cons a t ih =>
    by_cases ha : a.is_backward
    · have hfwd : ∀ y ∈ stableSort specPriorityLe (t.filter (fun x => !x.is_backward)),
          transLe a y = true := by
        intro y hy
        rw [mem_stableSort] at hy
        have := List.of_mem_filter hy
        exact transLe_of_backward_of_forward a y ha (by simpa using this)
      have hbwd : ∀ x ∈ stableSort specPriorityLe (t.filter (fun x => x.is_backward)),
          transLe a x = specPriorityLe a x := by
        intro x hx
        rw [mem_stableSort] at hx
        have := List.of_mem_filter hx
        exact transLe_eq_specPriorityLe_of_same a x (by simp [ha, this])
      calc stableSort transLe (a :: t)
          = orderedInsert transLe a (stableSort transLe t) := rfl
        _ = orderedInsert transLe a
              (stableSort specPriorityLe (t.filter (fun x => x.is_backward)) ++
               stableSort specPriorityLe (t.filter (fun x => !x.is_backward))) := by rw [ih]
        _ = orderedInsert transLe a
              (stableSort specPriorityLe (t.filter (fun x => x.is_backward))) ++
               stableSort specPriorityLe (t.filter (fun x => !x.is_backward)) :=
            orderedInsert_append_of_le _ _ _ _ hfwd
        _ = orderedInsert specPriorityLe a
              (stableSort specPriorityLe (t.filter (fun x => x.is_backward))) ++
               stableSort specPriorityLe (t.filter (fun x => !x.is_backward)) := by
            rw [orderedInsert_congr _ _ _ _ hbwd]
      simp [ha, stableSort]
    · have hbwd : ∀ x ∈ stableSort specPriorityLe (t.filter (fun x => x.is_backward)),
          transLe a x = false := by
        intro x hx
        rw [mem_stableSort] at hx
        have := List.of_mem_filter hx
        exact transLe_of_forward_of_backward a x (by simpa using ha) (by simpa using this)
      have hfwd : ∀ y ∈ stableSort specPriorityLe (t.filter (fun x => !x.is_backward)),
          transLe a y = specPriorityLe a y := by
        intro y hy
        rw [mem_stableSort] at hy
        have := List.of_mem_filter hy
        exact transLe_eq_specPriorityLe_of_same a y
          (by simp at ha this; simp [ha, this])
      calc stableSort transLe (a :: t)
          = orderedInsert transLe a (stableSort transLe t) := rfl
        _ = orderedInsert transLe a
              (stableSort specPriorityLe (t.filter (fun x => x.is_backward)) ++
               stableSort specPriorityLe (t.filter (fun x => !x.is_backward))) := by rw [ih]
        _ = stableSort specPriorityLe (t.filter (fun x => x.is_backward)) ++
              orderedInsert transLe a
                (stableSort specPriorityLe (t.filter (fun x => !x.is_backward))) :=
            orderedInsert_append_of_not_le _ _ _ _ hbwd
        _ = stableSort specPriorityLe (t.filter (fun x => x.is_backward)) ++
              orderedInsert specPriorityLe a
                (stableSort specPriorityLe (t.filter (fun x => !x.is_backward))) := by
            rw [orderedInsert_congr _ _ _ _ hfwd]
      simp [ha, stableSort]

/-! ## Claim theorems -/

/-- C2: for every phase context with `awaiting_user_input == true` and every
current phase, `_evaluate_transitions` returns the current phase and leaves
`_transition_reason` unset (`None` — it is `None` on entry at every call
site, since `process_message` clears it after applying each transition),
regardless of which transition conditions would evaluate to true. -/
theorem evaluate_blocks_when_awaiting {Phase E : Type} [DecidableEq Phase]
    (A : AgentGraph Phase) (cond : PhaseTransition Phase → PhaseContext E → Bool)
    (s : AgentState Phase E)
    (hA : s.phase_context.awaiting_user_input = true)
    (hr : s.transition_reason = none) :
    evaluateTransitions A cond s = (s.current_phase, none) := by
  simp [evaluateTransitions, hA, hr]

/-- A research-agent state that is awaiting user input while every condition
of every outgoing transition of `ANSWER` is true. -/
def c2State : AgentState ResearchPhase ResearchExt :=
  { current_phase := .ANSWER,
    phase_context :=
      { phase_visits := [("decompose", 1), ("answer", 1)],
        awaiting_user_input := true,
        ext := { question_tree_approved := true, high_priority_complete := true,
                 new_category_pending := some "new cat" } },
    transition_reason := none, clock := 0 }

theorem evaluate_blocks_when_awaiting_witness :
    evaluateTransitions researchGraph researchCond c2State = (.ANSWER, none) :=
  evaluate_blocks_when_awaiting researchGraph researchCond c2State rfl rfl

/-- C7: restoring a persisted state whose `current_phase` name is absent from
the agent's phase enumeration raises `ValueError` (`self.Phase(value)`)
instead of silently defaulting to the initial phase. -/
theorem restore_unknown_phase_errors (st : PersistedState) (v : String)
    (hv : st.current_phase = some v) (hun : ResearchPhase.ofValue v = none) :
    researchRestoreState st =
      .error ("ValueError: " ++ v ++ " is not a valid ResearchPhase") := by
  simp [researchRestoreState, hv, hun]

/-- An empty serialized research context. -/
def emptyResearchCtxDict : ResearchCtxDict :=
  { phase_visits := [], backward_trigger := none, backward_trigger_detail := none,
    categories := [], questions := [], question_tree_presented := false,
    question_tree_approved := false, answered_question_ids := [],
    skipped_question_ids := [], high_priority_complete := false,
    category_insights := [], insights_complete := false,
    adjacent_questions := [], frontier_populated := false }

theorem restore_unknown_phase_errors_witness :
    researchRestoreState
      { agent_type := "research", current_phase := some "bogus_phase",
        phase_context := emptyResearchCtxDict, transition_history := [] } =
      .error "ValueError: bogus_phase is not a valid ResearchPhase" :=
  restore_unknown_phase_errors _ "bogus_phase" rfl rfl

/-- C6: whenever `awaiting_user_input` is true after phase execution, the
checkpoint gate of both the understand and the build agent is skipped
entirely: no checkpoint is requested (the interaction list is empty), nothing
is auto-approved, and the context is untouched. -/
theorem checkpoint_gate_skipped_when_awaiting
    (handler : Option (Checkpoint → CheckpointResponse)) :
    (∀ (phase : UnderstandPhase) (ctx : UnderstandPhaseContext),
      ctx.awaiting_user_input = true →
      understandHandlePhaseCheckpoint handler phase ctx = (ctx, [])) ∧
    (∀ (phase : BuildPhase) (ctx : BuildPhaseContext),
      ctx.awaiting_user_input = true →
      buildHandlePhaseCheckpoint handler phase ctx = (ctx, [])) := by
  constructor
  · intro phase ctx h
    simp [understandHandlePhaseCheckpoint, h]
  · intro phase ctx h
    simp [buildHandlePhaseCheckpoint, h]

/-- C3: for a context that is not awaiting input, `_evaluate_transitions`
considers exactly the transitions leaving the current phase, in the spec's
order — all backward ones before all forward ones regardless of declared
priority, then by descending priority, ties broken by declaration order — and
takes the first whose condition holds, staying put when none does
(`_transition_reason` being `None` on entry at every call site). -/
theorem evaluate_matches_spec_order {Phase E : Type} [DecidableEq Phase]
    (A : AgentGraph Phase) (cond : PhaseTransition Phase → PhaseContext E → Bool)
    (s : AgentState Phase E)
    (hA : s.phase_context.awaiting_user_input = false)
    (hr : s.transition_reason = none) :
    evaluateTransitions A cond s = specEvaluate A cond s := by
  simp only [evaluateTransitions, specEvaluate, specOrdered, hA, hr,
    Bool.false_eq_true, if_false, stableSort_transLe_eq_partition]

/-- A research state in `RISE_ABOVE` where a forward condition and the
priority-10 backward condition hold simultaneously. -/
def c3State : AgentState ResearchPhase ResearchExt :=
  { current_phase := .RISE_ABOVE,
    phase_context :=
      { awaiting_user_input := false,
        ext := { insights_complete := true, unanswered_for_synthesis := ["q-7"] } },
    transition_reason := none, clock := 0 }

theorem evaluate_matches_spec_order_witness :
    evaluateTransitions researchGraph researchCond c3State =
      specEvaluate researchGraph researchCond c3State ∧
    evaluateTransitions researchGraph researchCond c3State =
      (.ANSWER, some "synthesis_requires_more_answers") :=
  ⟨evaluate_matches_spec_order researchGraph researchCond c3State rfl rfl,
   by decide⟩

/-- C4: in every turn of `process_message`, when transition evaluation
returns the current (non-terminal) phase, the loop emits the awaiting-input
event and the turn ends immediately (whatever fuel remains); when it returns
a different phase, a `TransitionRecord` is appended, a `phase.changed` event
is emitted, the new phase's visit count is incremented, and the loop
continues from the new phase, so executions and transitions chain within the
turn. -/
theorem process_turn_waits_or_chains {Phase E : Type} [DecidableEq Phase]
    (A : AgentGraph Phase) (executor : Executor Phase E)
    (cond : PhaseTransition Phase → PhaseContext E → Bool)
    (prompt : PhaseContext E → String) (message : String)
    (s : AgentState Phase E) (fuel : Nat) (ctx' : PhaseContext E)
    (evs : List SSEEvent)
    (hterm : s.current_phase ≠ A.complete_phase)
    (hexec : executor s.current_phase message s.phase_context =
      { ctx := ctx', events := evs, error := none }) :
    ((evaluateTransitions A cond { s with phase_context := ctx' }).1 = s.current_phase →
      processLoop (fuel + 1) A executor cond prompt message s =
        (reentryEvents A s ++ evs ++
           [SSEEvent.awaitingInput (prompt ctx') (A.value s.current_phase)],
         { s with phase_context := ctx',
                  transition_reason :=
                    (evaluateTransitions A cond { s with phase_context := ctx' }).2 },
         RunOutcome.ok)) ∧
    (∀ next reason,
      evaluateTransitions A cond { s with phase_context := ctx' } = (next, reason) →
      next ≠ s.current_phase →
      processStep A executor cond prompt message s =
        .cont (reentryEvents A s ++ evs ++
            [SSEEvent.phaseChanged (A.value s.current_phase) (A.value next)
              (isBackwardTransition A s.current_phase next) reason])
          { current_phase := next,
            phase_context :=
              (ctx'.record_transition A.value s.current_phase next
                (orUnknown reason) (isBackwardTransition A s.current_phase next)
                s.clock).increment_visit A.value next,
            transition_reason := none, clock := s.clock + 1 } ∧
      ((ctx'.record_transition A.value s.current_phase next
          (orUnknown reason) (isBackwardTransition A s.current_phase next)
          s.clock).increment_visit A.value next).transition_history =
        ctx'.transition_history ++
          [{ from_phase := A.value s.current_phase, to_phase := A.value next,
             reason := orUnknown reason,
             is_backward := isBackwardTransition A s.current_phase next,
             timestamp := s.clock }] ∧
      dictGet ((ctx'.record_transition A.value s.current_phase next
          (orUnknown reason) (isBackwardTransition A s.current_phase next)
          s.clock).increment_visit A.value next).phase_visits (A.value next) 0 =
        dictGet ctx'.phase_visits (A.value next) 0 + 1 ∧
      processLoop (fuel + 1) A executor cond prompt message s =
        ((reentryEvents A s ++ evs ++
            [SSEEvent.phaseChanged (A.value s.current_phase) (A.value next)
              (isBackwardTransition A s.current_phase next) reason]) ++
          (processLoop fuel A executor cond prompt message
            { current_phase := next,
              phase_context :=
                (ctx'.record_transition A.value s.current_phase next
                  (orUnknown reason) (isBackwardTransition A s.current_phase next)
                  s.clock).increment_visit A.value next,
              transition_reason := none, clock := s.clock + 1 }).1,
         (processLoop fuel A executor cond prompt message
            { current_phase := next,
              phase_context :=
                (ctx'.record_transition A.value s.current_phase next
                  (orUnknown reason) (isBackwardTransition A s.current_phase next)
                  s.clock).increment_visit A.value next,
              transition_reason := none, clock := s.clock + 1 }).2)) := by
  constructor
  · intro hstay
    have hstep : processStep A executor cond prompt message s =
        .stop (reentryEvents A s ++ evs ++
            [SSEEvent.awaitingInput (prompt ctx') (A.value s.current_phase)])
          { s with phase_context := ctx',
                   transition_reason :=
                     (evaluateTransitions A cond { s with phase_context := ctx' }).2 } := by
      simp [processStep, hexec, hstay]
    simp [processLoop, hterm, hstep]
  · intro next reason heval hne
    have hstep : processStep A executor cond prompt message s =
        .cont (reentryEvents A s ++ evs ++
            [SSEEvent.phaseChanged (A.value s.current_phase) (A.value next)
              (isBackwardTransition A s.current_phase next) reason])
          { current_phase := next,
            phase_context :=
              (ctx'.record_transition A.value s.current_phase next
                (orUnknown reason) (isBackwardTransition A s.current_phase next)
                s.clock).increment_visit A.value next,
            transition_reason := none, clock := s.clock + 1 } := by
      simp [processStep, hexec, heval, hne]
    refine ⟨hstep, ?_, ?_, ?_⟩
    · simp [PhaseContext.increment_visit, PhaseContext.record_transition]
    · simp [PhaseContext.increment_visit, PhaseContext.record_transition,
        dictGet_dictSet_self]
    · simp [processLoop, hterm, hstep]

/-- A forward step in the research graph: `DECOMPOSE`, tree approved, chains
to `ANSWER` and then stops there. -/
def c4Executor : Executor ResearchPhase ResearchExt :=
  fun _ _ c => { ctx := c, events := [.domain "agent.speaking" "working"], error := none }

/-- The initialized research state with the question tree already approved. -/
def c4State : AgentState ResearchPhase ResearchExt :=
  { current_phase := .DECOMPOSE,
    phase_context :=
      { phase_visits := [("decompose", 1)],
        ext := { question_tree_approved := true } },
    transition_reason := none, clock := 0 }

theorem process_turn_waits_or_chains_witness :
    (evaluateTransitions researchGraph researchCond
        { c4State with phase_context := c4State.phase_context }).1 ≠
      ResearchPhase.DECOMPOSE ∧
    processStep researchGraph c4Executor researchCond (fun _ => "go on") "m" c4State =
      .cont [SSEEvent.domain "agent.speaking" "working",
             SSEEvent.phaseChanged "decompose" "answer" false
               (some "question_tree_approved")]
        { current_phase := .ANSWER,
          phase_context :=
            (c4State.phase_context.record_transition ResearchPhase.value
              .DECOMPOSE .ANSWER "question_tree_approved" false 0).increment_visit
              ResearchPhase.value .ANSWER,
          transition_reason := none, clock := 1 } := by
  have h := (process_turn_waits_or_chains researchGraph c4Executor researchCond
    (fun _ => "go on") "m" c4State 0 c4State.phase_context
    [.domain "agent.speaking" "working"] (by decide) rfl).2
    .ANSWER (some "question_tree_approved") (by decide) (by decide)
  refine ⟨by decide, ?_⟩
  have := h.1
  simpa [reentryEvents, c4State, orUnknown, isBackwardTransition] using this

/-- C5: when the phase executor raises, the exception propagates out of
`process_message` unmodified, the current phase and its visit count are
unchanged, no `TransitionRecord` is appended, and the context mutations the
executor applied before failing are kept.  The hypotheses on `ctx'` express
the executor contract (§4.2): visit-count and history bookkeeping belong to
the engine, executors only mutate domain fields. -/
theorem executor_exception_propagates {Phase E : Type} [DecidableEq Phase]
    (A : AgentGraph Phase) (executor : Executor Phase E)
    (cond : PhaseTransition Phase → PhaseContext E → Bool)
    (prompt : PhaseContext E → String) (summary : PhaseContext E → String)
    (message : String) (s : AgentState Phase E) (fuel : Nat)
    (ctx' : PhaseContext E) (evs : List SSEEvent) (e : String)
    (hterm : s.current_phase ≠ A.complete_phase)
    (hexec : executor s.current_phase message s.phase_context =
      { ctx := ctx', events := evs, error := some e })
    (hvis : ctx'.phase_visits = s.phase_context.phase_visits)
    (hhist : ctx'.transition_history = s.phase_context.transition_history)
    (hawait : s.phase_context.awaiting_user_input = false) :
    processMessage (fuel + 1) A executor cond prompt summary message s =
      (reentryEvents A s ++ evs, { s with phase_context := ctx' },
       RunOutcome.errored e) ∧
    ({ s with phase_context := ctx' } : AgentState Phase E).current_phase =
      s.current_phase ∧
    ({ s with phase_context := ctx' } :
      AgentState Phase E).phase_context.phase_visits =
      s.phase_context.phase_visits ∧
    ({ s with phase_context := ctx' } :
      AgentState Phase E).phase_context.transition_history =
      s.phase_context.transition_history := by
  have hstep : processStep A executor cond prompt message s =
      .failed (reentryEvents A s ++ evs) { s with phase_context := ctx' } e := by
    simp [processStep, hexec]
  have hclear : clearAwaiting s = s := by
    simp [clearAwaiting, hawait]
  have hloop : processLoop (fuel + 1) A executor cond prompt message s =
      (reentryEvents A s ++ evs, { s with phase_context := ctx' },
       RunOutcome.errored e) := by
    simp [processLoop, hterm, hstep]
  refine ⟨?_, rfl, by simp [hvis], by simp [hhist]⟩
  simp [processMessage, hclear, hloop]

/-- An executor that mutates two domain fields of the research context and
then raises. -/
def c5Executor : Executor ResearchPhase ResearchExt :=
  fun _ _ c =>
    { ctx := { c with ext := { c.ext with
        question_tree_presented := true, new_category_pending := some "gap" } },
      events := [.domain "agent.speaking" "partial output"],
      error := some "RuntimeError: model call failed" }

theorem executor_exception_propagates_witness :
    processMessage 1 researchGraph c5Executor researchCond (fun _ => "p")
        (fun _ => "done") "m" c4State =
      ([SSEEvent.domain "agent.speaking" "partial output"],
       { c4State with phase_context := { c4State.phase_context with ext :=
           { c4State.phase_context.ext with
             question_tree_presented := true,
             new_category_pending := some "gap" } } },
       RunOutcome.errored "RuntimeError: model call failed") := by
  have h := (executor_exception_propagates researchGraph c5Executor researchCond
    (fun _ => "p") (fun _ => "done") "m" c4State 0
    { c4State.phase_context with ext :=
        { c4State.phase_context.ext with
          question_tree_presented := true,
          new_category_pending := some "gap" } }
    [.domain "agent.speaking" "partial output"]
    "RuntimeError: model call failed" (by decide) rfl rfl rfl rfl).1
  simpa [reentryEvents, c4State] using h

/-! ## Reachability invariants (C8, C9) -/

/-- The state carried by any `processStep` outcome. -/
def StepResult.state {Phase E : Type} : StepResult Phase E → AgentState Phase E
  | .cont _ s => s
  | .stop _ s => s
  | .failed _ s _ => s

/-- The §4.2 executor contract: visit counters and the transition history are
engine-owned bookkeeping that phase executors never touch (they mutate domain
fields and the awaiting latch).  All three agents' executors obey it. -/
def PreservesBookkeeping {Phase E : Type} (executor : Executor Phase E) : Prop :=
  ∀ p m c, ((executor p m c).ctx.phase_visits = c.phase_visits) ∧
    ((executor p m c).ctx.transition_history = c.transition_history)

/-- Number of history records entering the phase named `k`. -/
def countTo (h : List TransitionRecord) (k : String) : Nat :=
  (h.filter (fun r => r.to_phase == k)).length

/-- Every phase's visit counter equals the number of recorded entries into
it, plus one for the initial phase: each entry increments it exactly once. -/
def visitsConsistent {Phase E : Type} (A : AgentGraph Phase)
    (ctx : PhaseContext E) : Prop :=
  ∀ k : String, dictGet ctx.phase_visits k 0 =
    countTo ctx.transition_history k +
      (if k = A.value A.initial_phase then 1 else 0)

theorem countTo_append (h : List TransitionRecord) (r : TransitionRecord)
    (k : String) :
    countTo (h ++ [r]) k = countTo h k + (if r.to_phase = k then 1 else 0) := by
  by_cases hk : r.to_phase = k <;> simp [countTo, hk]

theorem visitsConsistent_record_increment {Phase E : Type}
    (A : AgentGraph Phase) (ctx : PhaseContext E) (cur next : Phase)
    (reason : String) (b : Bool) (ts : Nat)
    (hc : visitsConsistent A ctx) :
    visitsConsistent A
      ((ctx.record_transition A.value cur next reason b ts).increment_visit
        A.value next) := by
  intro k
  by_cases hk : k = A.value next
  · subst hk
    simp only [PhaseContext.increment_visit, PhaseContext.record_transition,
      dictGet_dictSet_self]
    rw [countTo_append, hc (A.value next)]
    have h1 : (if A.value next = A.value next then 1 else 0) = 1 := by simp
    rw [h1]
    omega
  · simp only [PhaseContext.increment_visit, PhaseContext.record_transition]
    rw [dictGet_dictSet_ne _ _ _ _ _ hk, countTo_append,
      if_neg (fun h => hk h.symm)]
    simpa using hc k

/-- The full C8 induction invariant: consistent counters plus a visited
current phase. -/
def visitsInvariant {Phase E : Type} (A : AgentGraph Phase)
    (s : AgentState Phase E) : Prop :=
  visitsConsistent A s.phase_context ∧
    1 ≤ dictGet s.phase_context.phase_visits (A.value s.current_phase) 0

theorem processStep_visitsInvariant {Phase E : Type} [DecidableEq Phase]
    (A : AgentGraph Phase) (executor : Executor Phase E)
    (cond : PhaseTransition Phase → PhaseContext E → Bool)
    (prompt : PhaseContext E → String) (message : String)
    (s : AgentState Phase E)
    (hb : PreservesBookkeeping executor) (hinv : visitsInvariant A s) :
    visitsInvariant A (processStep A executor cond prompt message s).state := by
  obtain ⟨h1, h2⟩ := hinv
  have hexec := hb s.current_phase message s.phase_context
  rcases hr : executor s.current_phase message s.phase_context with ⟨ctx', evs', err⟩
  rw [hr] at hexec
  obtain ⟨hv, hh⟩ := hexec
  simp only at hv hh
  have hctx : visitsConsistent A ctx' := by
    intro k
    rw [hv, hh]
    exact h1 k
  cases err with
  | some e =>
    simp only [processStep, hr, StepResult.state]
    exact ⟨hctx, by rw [hv]; exact h2⟩
  | none =>
    by_cases hnext :
        (evaluateTransitions A cond { s with phase_context := ctx' }).1 =
          s.current_phase
    · simp only [processStep, hr, hnext, if_pos, StepResult.state]
      exact ⟨hctx, by rw [hv]; exact h2⟩
    · simp only [processStep, hr, StepResult.state, hnext, if_neg,
        not_false_iff]
      refine ⟨visitsConsistent_record_increment A ctx' _ _ _ _ _ hctx, ?_⟩
      simp [PhaseContext.increment_visit, PhaseContext.record_transition,
        dictGet_dictSet_self]

theorem processLoop_visitsInvariant {Phase E : Type} [DecidableEq Phase]
    (fuel : Nat) (A : AgentGraph Phase) (executor : Executor Phase E)
    (cond : PhaseTransition Phase → PhaseContext E → Bool)
    (prompt : PhaseContext E → String) (message : String)
    (s : AgentState Phase E)
    (hb : PreservesBookkeeping executor) (hinv : visitsInvariant A s) :
    visitsInvariant A
      (processLoop fuel A executor cond prompt message s).2.1 := by
  induction fuel generalizing s with
  | zero => exact hinv
  | succ n ih =>
    by_cases hc : s.current_phase = A.complete_phase
    · simpa [processLoop, hc] using hinv
    · have hstep := processStep_visitsInvariant A executor cond prompt message s hb hinv
      rcases hs : processStep A executor cond prompt message s with
        ⟨evs, s'⟩ | ⟨evs, s'⟩ | ⟨evs, s', e⟩
      · rw [hs] at hstep
        simpa [processLoop, hc, hs] using ih s' hstep
      · rw [hs] at hstep
        simpa [processLoop, hc, hs] using hstep
      · rw [hs] at hstep
        simpa [processLoop, hc, hs] using hstep

/-- The completion epilogue of `process_message` never changes the agent
state: the returned state is the loop's final state. -/
theorem processMessage_state_eq {Phase E : Type} [DecidableEq Phase]
    (fuel : Nat) (A : AgentGraph Phase) (executor : Executor Phase E)
    (cond : PhaseTransition Phase → PhaseContext E → Bool)
    (prompt : PhaseContext E → String) (summary : PhaseContext E → String)
    (message : String) (s : AgentState Phase E) :
    (processMessage fuel A executor cond prompt summary message s).2.1 =
      (processLoop fuel A executor cond prompt message (clearAwaiting s)).2.1 := by
  rcases h : processLoop fuel A executor cond prompt message (clearAwaiting s) with
    ⟨evs, s', out⟩
  cases out <;> simp [processMessage, h] <;> split <;> rfl

theorem processMessage_visitsInvariant {Phase E : Type} [DecidableEq Phase]
    (fuel : Nat) (A : AgentGraph Phase) (executor : Executor Phase E)
    (cond : PhaseTransition Phase → PhaseContext E → Bool)
    (prompt : PhaseContext E → String) (summary : PhaseContext E → String)
    (message : String) (s : AgentState Phase E)
    (hb : PreservesBookkeeping executor) (hinv : visitsInvariant A s) :
    visitsInvariant A
      (processMessage fuel A executor cond prompt summary message s).2.1 := by
  have hclear : visitsInvariant A (clearAwaiting s) := by
    unfold clearAwaiting
    by_cases h : s.phase_context.awaiting_user_input <;> simpa [h] using hinv
  rw [processMessage_state_eq]
  exact processLoop_visitsInvariant fuel A executor cond prompt message
    (clearAwaiting s) hb hclear

/-- A fresh research phase context, as `_create_phase_context` builds it. -/
def researchCtx0 : ResearchPhaseContext := { ext := {} }

/-- C8: in every state reached by `initialize` followed by any sequence of
`process_message` turns, each phase's visit counter equals the number of
recorded entries into it (plus one for the initial phase) — incremented
exactly once per entry — so `phase_visits[p] ≥ 1` for every entered phase,
including the current and the initial one. -/
theorem reachable_visit_counts {Phase E : Type} [DecidableEq Phase]
    (A : AgentGraph Phase) (executor : Executor Phase E)
    (cond : PhaseTransition Phase → PhaseContext E → Bool)
    (prompt : PhaseContext E → String) (summary : PhaseContext E → String)
    (mkCtx : PhaseContext E) (s : AgentState Phase E)
    (hb : PreservesBookkeeping executor)
    (hv : mkCtx.phase_visits = []) (hh : mkCtx.transition_history = [])
    (hs : Reachable A executor cond prompt summary mkCtx s) :
    (∀ k : String, dictGet s.phase_context.phase_visits k 0 =
      countTo s.phase_context.transition_history k +
        (if k = A.value A.initial_phase then 1 else 0)) ∧
    1 ≤ dictGet s.phase_context.phase_visits (A.value s.current_phase) 0 ∧
    (∀ k : String,
      (k = A.value A.initial_phase ∨
        ∃ r ∈ s.phase_context.transition_history, r.to_phase = k) →
      1 ≤ dictGet s.phase_context.phase_visits k 0) := by
  have hinv : visitsInvariant A s := by
    induction hs with
    | init =>
      constructor
      · intro k
        simp only [initializeAgent, PhaseContext.increment_visit, hv, hh]
        by_cases hk : k = A.value A.initial_phase
        · subst hk
          rw [dictGet_dictSet_self]
          simp [dictGet, countTo]
        · rw [dictGet_dictSet_ne _ _ _ _ _ hk]
          simp [dictGet, countTo, hk]
      · simp only [initializeAgent, PhaseContext.increment_visit, hv]
        rw [dictGet_dictSet_self]
        omega
    | step s' fuel message hsr ih =>
      exact processMessage_visitsInvariant fuel A executor cond prompt summary
        message s' hb ih
  obtain ⟨h1, h2⟩ := hinv
  refine ⟨h1, h2, ?_⟩
  intro k hk
  rw [h1 k]
  rcases hk with hk | ⟨r, hr, hto⟩
  · simp [hk]
  · have hmem : r ∈ s.phase_context.transition_history.filter
        (fun x => x.to_phase == k) := by
      simp [List.mem_filter, hr, hto]
    have hlen : 1 ≤ countTo s.phase_context.transition_history k :=
      List.length_pos.2 (List.ne_nil_of_mem hmem)
    omega

/-- The state after one turn of the research agent from a fresh initialize. -/
def c8State : AgentState ResearchPhase ResearchExt :=
  (processMessage 2 researchGraph c4Executor researchCond (fun _ => "p")
    (fun _ => "s") "hello" (initializeAgent researchGraph researchCtx0)).2.1

theorem reachable_visit_counts_witness :
    1 ≤ dictGet c8State.phase_context.phase_visits
      (ResearchPhase.value c8State.current_phase) 0 :=
  (reachable_visit_counts researchGraph c4Executor researchCond (fun _ => "p")
    (fun _ => "s") researchCtx0 c8State
    (fun _ _ _ => ⟨rfl, rfl⟩) rfl rfl
    (Reachable.step _ 2 "hello" Reachable.init)).2.1

/-! ## Backward-trigger invariant (C9) -/

/-- The executor contract needed for the backward-trigger invariant: the
executor leaves `backward_trigger` and the history to the engine.  (The
research and understand executors obey it; the build agent's
`report_anchor_gap` tool writes `backward_trigger` directly and is outside
this contract.) -/
def PreservesTriggerHistory {Phase E : Type} (executor : Executor Phase E) : Prop :=
  ∀ p m c, ((executor p m c).ctx.backward_trigger = c.backward_trigger) ∧
    ((executor p m c).ctx.transition_history = c.transition_history)

/-- `backward_trigger` is set only when the most recently recorded transition
was backward, and then holds its reason. -/
def triggerConsistent {E : Type} (ctx : PhaseContext E) : Prop :=
  ctx.backward_trigger = none ∨
    ∃ r, ctx.transition_history.getLast? = some r ∧ r.is_backward = true ∧
      ctx.backward_trigger = some r.reason

theorem triggerConsistent_record {Phase E : Type} (value : Phase → String)
    (ctx : PhaseContext E) (f t : Phase) (reason : String) (b : Bool)
    (ts : Nat) :
    triggerConsistent (ctx.record_transition value f t reason b ts) := by
  cases b with
  | false => left; simp [PhaseContext.record_transition]
  | true =>
    right
    refine ⟨{ from_phase := value f, to_phase := value t, reason := reason,
              is_backward := true, timestamp := ts }, ?_, rfl, ?_⟩
    · simp [PhaseContext.record_transition, List.getLast?_concat]
    · simp [PhaseContext.record_transition]

theorem processStep_triggerConsistent {Phase E : Type} [DecidableEq Phase]
    (A : AgentGraph Phase) (executor : Executor Phase E)
    (cond : PhaseTransition Phase → PhaseContext E → Bool)
    (prompt : PhaseContext E → String) (message : String)
    (s : AgentState Phase E)
    (hb : PreservesTriggerHistory executor)
    (hinv : triggerConsistent s.phase_context) :
    triggerConsistent
      (processStep A executor cond prompt message s).state.phase_context := by
  have hexec := hb s.current_phase message s.phase_context
  rcases hr : executor s.current_phase message s.phase_context with ⟨ctx', evs', err⟩
  rw [hr] at hexec
  obtain ⟨ht, hh⟩ := hexec
  simp only at ht hh
  have hctx : triggerConsistent ctx' := by
    unfold triggerConsistent
    rw [ht, hh]
    exact hinv
  cases err with
  | some e => simpa only [processStep, hr, StepResult.state] using hctx
  | none =>
    by_cases hnext :
        (evaluateTransitions A cond { s with phase_context := ctx' }).1 =
          s.current_phase
    · simpa only [processStep, hr, hnext, if_pos, StepResult.state] using hctx
    · simp only [processStep, hr, StepResult.state, hnext, if_neg,
        not_false_iff]
      have := triggerConsistent_record A.value ctx' s.current_phase
        (evaluateTransitions A cond { s with phase_context := ctx' }).1
        (orUnknown (evaluateTransitions A cond { s with phase_context := ctx' }).2)
        (isBackwardTransition A s.current_phase
          (evaluateTransitions A cond { s with phase_context := ctx' }).1)
        s.clock
      unfold triggerConsistent at this ⊢
      simpa [PhaseContext.increment_visit] using this

theorem processLoop_triggerConsistent {Phase E : Type} [DecidableEq Phase]
    (fuel : Nat) (A : AgentGraph Phase) (executor : Executor Phase E)
    (cond : PhaseTransition Phase → PhaseContext E → Bool)
    (prompt : PhaseContext E → String) (message : String)
    (s : AgentState Phase E)
    (hb : PreservesTriggerHistory executor)
    (hinv : triggerConsistent s.phase_context) :
    triggerConsistent
      (processLoop fuel A executor cond prompt message s).2.1.phase_context := by
  induction fuel generalizing s with
  | zero => exact hinv
  | succ n ih =>
    by_cases hc : s.current_phase = A.complete_phase
    · simpa [processLoop, hc] using hinv
    · have hstep := processStep_triggerConsistent A executor cond prompt message s hb hinv
      rcases hs : processStep A executor cond prompt message s with
        ⟨evs, s'⟩ | ⟨evs, s'⟩ | ⟨evs, s', e⟩
      · rw [hs] at hstep
        simpa [processLoop, hc, hs] using ih s' hstep
      · rw [hs] at hstep
        simpa [processLoop, hc, hs] using hstep
      · rw [hs] at hstep
        simpa [processLoop, hc, hs] using hstep

/-- A fresh build phase context, as `_create_phase_context` builds it. -/
def buildCtx0 : BuildPhaseContext := { ext := {} }

/-- A build-agent executor modelling one tool call per forward phase
(`mark_anchors_confirmed`, `mark_slos_selected`, `mark_sequences_designed`)
and a `CONSTRUCTION` turn in which the model calls both
`mark_scaffold_delivered` (raises the awaiting latch, build/agent.py:414) and
`flag_anchor_gap` (writes `backward_trigger` directly, build/agent.py:521). -/
def c9BuildExecutor : Executor BuildPhase BuildExt :=
  fun p _ c =>
    match p with
    | .ANCHOR_DISCOVERY =>
      { ctx := { c with ext := { c.ext with anchors_confirmed := true } },
        events := [], error := none }
    | .CLASSIFY =>
      { ctx := { c with ext := { c.ext with
          slos_confirmed := true, selected_slo_ids := ["slo-1"] } },
        events := [], error := none }
    | .SEQUENCE_DESIGN =>
      { ctx := { c with ext := { c.ext with sequences_designed := true } },
        events := [], error := none }
    | .CONSTRUCTION =>
      { ctx := { c with
          awaiting_user_input := true,
          backward_trigger := some "anchor_gap_detected",
          backward_trigger_detail := some "no grounding anchor for recursion" },
        events := [], error := none }
    | _ => { ctx := c, events := [], error := none }

/-- The build state reached by initialize plus one turn that chains
`ANCHOR_DISCOVERY → CLASSIFY → SEQUENCE_DESIGN → CONSTRUCTION` and then stops
in `CONSTRUCTION` awaiting input with the anchor gap flagged. -/
def c9BuildState : AgentState BuildPhase BuildExt :=
  (processMessage 5 buildGraph c9BuildExecutor buildCond (fun _ => "p")
    (fun _ => "s") "teach me recursion"
    (initializeAgent buildGraph buildCtx0)).2.1

/-- C9 counterexample: a reachable build-agent context whose
`backward_trigger` is non-`None` while the most recently recorded transition
is forward.  The `flag_anchor_gap` tool writes `backward_trigger` directly
during phase execution and `mark_scaffold_delivered` raises the awaiting
latch, so the backward edge cannot fire and the turn ends with the trigger
set although the last record is the forward
`SEQUENCE_DESIGN → CONSTRUCTION` one — refuting the claim's "every reachable
context" clause. -/
theorem backward_trigger_set_after_forward_record :
    Reachable buildGraph c9BuildExecutor buildCond (fun _ => "p")
      (fun _ => "s") buildCtx0 c9BuildState ∧
    c9BuildState.phase_context.backward_trigger = some "anchor_gap_detected" ∧
    ∃ r, c9BuildState.phase_context.transition_history.getLast? = some r ∧
      r.is_backward = false :=
  ⟨Reachable.step _ 5 "teach me recursion" Reachable.init, rfl,
   ⟨_, rfl, rfl⟩⟩

/-- C9 amended: `record_transition` with `is_backward=false` clears both
`backward_trigger` and `backward_trigger_detail`; with `is_backward=true` it
sets `backward_trigger` to the given reason.  The reachable-context corollary
holds only for agents whose executors leave `backward_trigger` and the
history to `record_transition` (true of the research and understand agents):
for such executors, in every reachable context `backward_trigger` is
non-`None` only if the most recently recorded transition was backward.  The
build agent's `flag_anchor_gap` tool writes the trigger directly and falls
outside this guarantee. -/
theorem backward_trigger_tracks_last_record {Phase E : Type} [DecidableEq Phase]
    (A : AgentGraph Phase) (executor : Executor Phase E)
    (cond : PhaseTransition Phase → PhaseContext E → Bool)
    (prompt : PhaseContext E → String) (summary : PhaseContext E → String)
    (mkCtx : PhaseContext E)
    (hb : PreservesTriggerHistory executor)
    (hmk : mkCtx.backward_trigger = none) :
    (∀ (ctx : PhaseContext E) (f t : Phase) (reason : String) (ts : Nat),
      (ctx.record_transition A.value f t reason false ts).backward_trigger = none ∧
      (ctx.record_transition A.value f t reason false ts).backward_trigger_detail = none) ∧
    (∀ (ctx : PhaseContext E) (f t : Phase) (reason : String) (ts : Nat),
      (ctx.record_transition A.value f t reason true ts).backward_trigger = some reason) ∧
    (∀ s : AgentState Phase E,
      Reachable A executor cond prompt summary mkCtx s →
      s.phase_context.backward_trigger ≠ none →
      ∃ r, s.phase_context.transition_history.getLast? = some r ∧
        r.is_backward = true) := by
  refine ⟨?_, ?_, ?_⟩
  · intro ctx f t reason ts
    constructor <;> simp [PhaseContext.record_transition]
  · intro ctx f t reason ts
    simp [PhaseContext.record_transition]
  · intro s hs
    have hinv : triggerConsistent s.phase_context := by
      induction hs with
      | init =>
        left
        show (mkCtx.increment_visit A.value A.initial_phase).backward_trigger = none
        simpa [PhaseContext.increment_visit] using hmk
      | step s' fuel message hsr ih =>
        rw [processMessage_state_eq]
        have hclear : triggerConsistent (clearAwaiting s').phase_context := by
          unfold clearAwaiting triggerConsistent
          by_cases h : s'.phase_context.awaiting_user_input <;> simpa [h] using ih
        exact processLoop_triggerConsistent fuel A executor cond prompt message
          (clearAwaiting s') hb hclear
    intro hne
    rcases hinv with h | ⟨r, hl, hbk, _⟩
    · exact absurd h hne
    · exact ⟨r, hl, hbk⟩

/-- An executor that records a backward jump: sets the pending-category flag
so `new_category_discovered` fires from `ANSWER`. -/
def c9Executor : Executor ResearchPhase ResearchExt :=
  fun _ _ c =>
    { ctx := { c with ext := { c.ext with new_category_pending := some "Economics" } },
      events := [], error := none }

theorem backward_trigger_tracks_last_record_witness :
    ((researchCtx0.record_transition ResearchPhase.value .ANSWER .DECOMPOSE
        "new_category_discovered" false 0).backward_trigger = none ∧
      (researchCtx0.record_transition ResearchPhase.value .ANSWER .DECOMPOSE
        "new_category_discovered" false 0).backward_trigger_detail = none) ∧
    (researchCtx0.record_transition ResearchPhase.value .ANSWER .DECOMPOSE
      "new_category_discovered" true 0).backward_trigger =
        some "new_category_discovered" :=
  ⟨(backward_trigger_tracks_last_record researchGraph c9Executor researchCond
      (fun _ => "p") (fun _ => "s") researchCtx0
      (fun _ _ _ => ⟨rfl, rfl⟩) rfl).1 researchCtx0 _ _ _ 0,
   (backward_trigger_tracks_last_record researchGraph c9Executor researchCond
      (fun _ => "p") (fun _ => "s") researchCtx0
      (fun _ _ _ => ⟨rfl, rfl⟩) rfl).2.1 researchCtx0 _ _ _ 0⟩

/-! ## Recorded backward flag (C10) -/

/-- A two-edge test graph with both a forward and a backward edge between the
same pair of phases; the forward one is declared first.  (Phases are plain
numbers: 0 and 1, with 2 terminal.) -/
def c10Graph : AgentGraph Nat :=
  { phase_transitions :=
      [ { from_phase := 0, to_phase := 1, condition := "fwd",
          is_backward := false, priority := 0 },
        { from_phase := 0, to_phase := 1, condition := "bwd",
          is_backward := true, priority := 0 } ],
    initial_phase := 0, complete_phase := 2,
    value := fun n => toString n,
    ofValue := fun v => if v = "0" then some 0 else if v = "1" then some 1
      else if v = "2" then some 2 else none }

/-- Only the backward edge's condition holds. -/
def c10Cond (t : PhaseTransition Nat) (_ : PhaseContext Unit) : Bool :=
  t.condition == "bwd"

/-- An executor that does nothing. -/
def c10Executor : Executor Nat Unit :=
  fun _ _ c => { ctx := c, events := [], error := none }

/-- The agent sitting in phase 0 with a fresh context. -/
def c10State : AgentState Nat Unit :=
  { current_phase := 0, phase_context := { ext := () },
    transition_reason := none, clock := 0 }

/-- C10: the `is_backward` flag stored in the appended `TransitionRecord` is
computed by `_is_backward_transition` — the flag of the first transition in
declaration order matching the (from, to) pair, `false` when none matches —
not the flag of the transition whose condition fired.  Concretely, with a
forward and a backward edge declared between the same pair (forward first),
the evaluator fires the backward edge's condition, yet the record carries
`is_backward = false` from the earlier-declared edge. -/
theorem recorded_flag_from_first_declared_edge :
    (∀ (Phase E : Type) [DecidableEq Phase] (A : AgentGraph Phase)
      (executor : Executor Phase E)
      (cond : PhaseTransition Phase → PhaseContext E → Bool)
      (prompt : PhaseContext E → String) (message : String)
      (s : AgentState Phase E) (ctx' : PhaseContext E) (evs : List SSEEvent)
      (next : Phase) (reason : Option String),
      executor s.current_phase message s.phase_context =
        { ctx := ctx', events := evs, error := none } →
      evaluateTransitions A cond { s with phase_context := ctx' } = (next, reason) →
      next ≠ s.current_phase →
      (processStep A executor cond prompt message s).state.phase_context.transition_history =
        ctx'.transition_history ++
          [{ from_phase := A.value s.current_phase, to_phase := A.value next,
             reason := orUnknown reason,
             is_backward := isBackwardTransition A s.current_phase next,
             timestamp := s.clock }]) ∧
    evaluateTransitions c10Graph c10Cond c10State = (1, some "bwd") ∧
    (∃ t ∈ c10Graph.phase_transitions,
      t.condition = "bwd" ∧ t.is_backward = true) ∧
    isBackwardTransition c10Graph 0 1 = false ∧
    (processStep c10Graph c10Executor c10Cond (fun _ => "p") "m"
        c10State).state.phase_context.transition_history =
      [{ from_phase := "0", to_phase := "1", reason := "bwd",
         is_backward := false, timestamp := 0 }] := by
  refine ⟨?_, by decide, ?_, by decide, by decide⟩
  · intro Phase E inst A executor cond prompt message s ctx' evs next reason
      hexec heval hne
    simp [processStep, hexec, heval, hne, StepResult.state,
      PhaseContext.increment_visit, PhaseContext.record_transition]
  · exact ⟨{ from_phase := 0, to_phase := 1, condition := "bwd",
             is_backward := true, priority := 0 }, by decide, rfl, rfl⟩

theorem recorded_flag_from_first_declared_edge_witness :
    (processStep c10Graph c10Executor c10Cond (fun _ => "p") "m"
        c10State).state.phase_context.transition_history =
      c10State.phase_context.transition_history ++
        [{ from_phase := "0", to_phase := "1", reason := orUnknown (some "bwd"),
           is_backward := isBackwardTransition c10Graph 0 1, timestamp := 0 }] :=
  recorded_flag_from_first_declared_edge.1 Nat Unit c10Graph c10Executor c10Cond
    (fun _ => "p") "m" c10State c10State.phase_context [] 1 (some "bwd")
    rfl (by decide) (by decide)

/-! ## Serialization round trip (C1) -/

theorem ResearchPhase.ofValue_value (p : ResearchPhase) :
    ResearchPhase.ofValue p.value = some p := by
  cases p <;> rfl

theorem recordDict_round_trip (r : TransitionRecord) :
    recordFromDict (TransitionRecord.to_dict r) = r := rfl

theorem history_round_trip (h : List TransitionRecord) :
    (h.map TransitionRecord.to_dict).map recordFromDict = h := by
  induction h with
  | nil => rfl
  | cons r t ih => simp [ih, recordDict_round_trip]

/-- An executor that asks the user something: it raises the awaiting latch,
as the `mark_*_asked` tools do. -/
def c1Executor : Executor ResearchPhase ResearchExt :=
  fun _ _ c =>
    { ctx := { c with awaiting_user_input := true }, events := [], error := none }

/-- A reachable research state that is awaiting user input: initialize, then
one turn whose executor asks a question. -/
def c1State : AgentState ResearchPhase ResearchExt :=
  (processMessage 1 researchGraph c1Executor researchCond (fun _ => "p")
    (fun _ => "s") "hi" (initializeAgent researchGraph researchCtx0)).2.1

/-- C1 counterexample: a reachable state with `awaiting_user_input = true`
whose serialize/restore round trip comes back with the flag `false` — no
serializer writes `awaiting_user_input`, so the round trip is not the
identity on it and the claim fails at this state. -/
theorem research_round_trip_loses_awaiting :
    Reachable researchGraph c1Executor researchCond (fun _ => "p")
      (fun _ => "s") researchCtx0 c1State ∧
    c1State.phase_context.awaiting_user_input = true ∧
    ∃ r, researchRestoreState (researchGetState c1State) = .ok r ∧
      r.phase_context.awaiting_user_input = false :=
  ⟨Reachable.step _ 1 "hi" Reachable.init, by decide, ⟨_, rfl, rfl⟩⟩

/-- C1 amended: for every (initialized) research agent state,
`restore(serialize(S))` reproduces `current_phase`, every `phase_visits`
entry, `backward_trigger`, `backward_trigger_detail` and the full
`transition_history` exactly — but `awaiting_user_input` is not serialized
and is always `false` after restore. -/
theorem research_round_trip_amended (s : AgentState ResearchPhase ResearchExt) :
    ∃ r, researchRestoreState (researchGetState s) = .ok r ∧
      r.current_phase = s.current_phase ∧
      r.phase_context.phase_visits = s.phase_context.phase_visits ∧
      r.phase_context.backward_trigger = s.phase_context.backward_trigger ∧
      r.phase_context.backward_trigger_detail =
        s.phase_context.backward_trigger_detail ∧
      r.phase_context.transition_history = s.phase_context.transition_history ∧
      r.phase_context.awaiting_user_input = false := by
  refine ⟨{ current_phase := s.current_phase,
            phase_context := { researchFromDict (researchToDict s.phase_context) with
              transition_history :=
                (s.phase_context.transition_history.map
                  TransitionRecord.to_dict).map recordFromDict },
            transition_reason := none, clock := 0 },
          ?_, rfl, ?_, ?_, ?_, ?_, rfl⟩
  · simp only [researchRestoreState, researchGetState,
      ResearchPhase.ofValue_value]
  · simp [researchFromDict, researchToDict]
  · simp [researchFromDict, researchToDict]
  · simp [researchFromDict, researchToDict]
  · simpa using history_round_trip s.phase_context.transition_history

/-- An understand context that would request the configure checkpoint were it
not awaiting user input. -/
def c6UnderstandCtx : UnderstandPhaseContext :=
  { awaiting_user_input := true, ext := { session_configured := false } }

/-- A build context that would request the anchor checkpoint were it not
awaiting user input. -/
def c6BuildCtx : BuildPhaseContext :=
  { awaiting_user_input := true,
    ext := { anchors := [{ id := "a1", description := "lists", strength := "strong",
                           evidence := "uses them daily" }],
             anchors_confirmed := true } }

theorem checkpoint_gate_skipped_when_awaiting_witness :
    understandHandlePhaseCheckpoint none .CONFIGURE c6UnderstandCtx =
      (c6UnderstandCtx, []) ∧
    buildHandlePhaseCheckpoint none .ANCHOR_DISCOVERY c6BuildCtx =
      (c6BuildCtx, []) :=
  ⟨(checkpoint_gate_skipped_when_awaiting none).1 _ c6UnderstandCtx rfl,
   (checkpoint_gate_skipped_when_awaiting none).2 _ c6BuildCtx rfl⟩

end KnowledgeForge
